import Mathlib

set_option autoImplicit false

/-!
Verification of the cooling-loop controller
(`src/CoolingLoopControl_V1.1.cpp`).

Shallow embedding conventions:
* C++ `float`/`double` values are modelled as exact rationals (`ℚ`);
  the control law, the step table, the clamping and the byte scaling are
  all expressed in exact arithmetic.
* The stateful `main` loop is modelled as a step function `tick` on an
  explicit `LoopState`; per-tick side effects (`controlPump`/`controlFan`
  calls, the `CANcontrol` frame, the `return 0` in `SAFETY_SHUTDOWN`)
  are returned in a `TickResult` record.
* `std::stof` is modelled on the decimal part of the `strtof` grammar
  (optional whitespace, optional sign, digits with optional fraction and
  optional exponent); hexadecimal, infinity and NaN forms are omitted as
  they are irrelevant to the startup-configuration claims.
-/

namespace CoolingLoop

/-- The PID controller state: gains fixed at construction, plus the
`prevError` and `integral` accumulators (both start at `0.0`).
Mirrors `class PIDController`. -/
structure PIDController where
  Kp : ℚ
  Ki : ℚ
  Kd : ℚ
  prevError : ℚ
  integral : ℚ
deriving DecidableEq

/-- The constructor `PIDController(p, i, d)`: `prevError = 0`, `integral = 0`. -/
def PIDController.init (p i d : ℚ) : PIDController :=
  { Kp := p, Ki := i, Kd := d, prevError := 0, integral := 0 }

/-- `PIDController::compute`: returns the output together with the updated
controller state (the C++ method mutates `integral` and `prevError`). -/
def PIDController.compute (c : PIDController) (setpoint measuredValue : ℚ) :
    ℚ × PIDController :=
  let error := setpoint - measuredValue
  let integral := c.integral + error
  let derivative := error - c.prevError
  ((c.Kp * error) + (c.Ki * integral) + (c.Kd * derivative),
   { c with integral := integral, prevError := error })

/-- `enum class SystemState`. -/
inductive SystemState where
  | OFF
  | ON
  | SAFETY_SHUTDOWN
deriving DecidableEq

/-- `interpolateTemperature`: the greater-or-equal step table, scanned from
the highest voltage threshold down, with fallback `120.0`. -/
def interpolateTemperature (voltage : ℚ) : ℚ :=
  if voltage ≥ 4.771 then -20
  else if voltage ≥ 4.642 then -10
  else if voltage ≥ 4.438 then 0
  else if voltage ≥ 4.141 then 10
  else if voltage ≥ 3.751 then 20
  else if voltage ≥ 3.325 then 30
  else if voltage ≥ 2.838 then 40
  else if voltage ≥ 2.500 then 50
  else if voltage ≥ 1.915 then 60
  else if voltage ≥ 1.212 then 80
  else if voltage ≥ 0.749 then 100
  else 120

/-- The two clamping statements in `main`
(`if (x < 0) x = 0; if (x > 100) x = 100;`). -/
def clamp (x : ℚ) : ℚ :=
  if x < 0 then 0 else if x > 100 then 100 else x

/-- `static_cast<unsigned char>(speed / 100 * 255)`: the scaled value is
nonnegative for the speeds in range, so the cast's truncation toward zero
is the floor. -/
def scaleByte (speed : ℚ) : ℕ :=
  (⌊speed / 100 * 255⌋).toNat

/-- A CAN frame: the 29-bit identifier and the 8 data bytes. -/
structure CANFrame where
  id : ℕ
  data : List ℕ
deriving DecidableEq

/-- `CANcontrol`: identifier `0x18FF408F`, 8 data bytes all zero except the
scaled pump speed at offset 2 and the scaled fan speed at offset 6. -/
def CANcontrol (pumpSpeed fanSpeed : ℚ) : CANFrame :=
  { id := 0x18FF408F
    data := [0, 0, scaleByte pumpSpeed, 0, 0, 0, scaleByte fanSpeed, 0] }

/-- The startup configuration parsed in `main`
(`tempSetpoint`, `safetyThreshold`). -/
structure Config where
  tempSetpoint : ℚ
  safetyThreshold : ℚ
deriving DecidableEq

/-- The mutable state of `main`'s control loop that survives from one tick
to the next. -/
structure LoopState where
  ignitionSwitch : Bool
  pumpPID : PIDController
  fanPID : PIDController
  pumpSpeed : ℚ
  fanSpeed : ℚ
  currentState : SystemState
deriving DecidableEq

/-- The initial values in `main`: ignition off, pump PID gains
`(0.5, 0.1, 0.05)`, fan PID gains `(0.4, 0.1, 0.03)`, both speeds `0`,
state `OFF`. -/
def initLoopState : LoopState :=
  { ignitionSwitch := false
    pumpPID := PIDController.init 0.5 0.1 0.05
    fanPID := PIDController.init 0.4 0.1 0.03
    pumpSpeed := 0
    fanSpeed := 0
    currentState := SystemState.OFF }

/-- Everything one iteration of the `while (true)` loop produces:
the next loop state, the arguments of the `controlPump` / `controlFan`
calls made during the iteration (in order), the arguments handed to
`CANcontrol` at the end of the iteration (`none` when the iteration
executed `return 0` before reaching that call), and whether the process
returned. -/
structure TickResult where
  s : LoopState
  pumpCmds : List ℚ
  fanCmds : List ℚ
  canArgs : Option (ℚ × ℚ)
  halted : Bool
deriving DecidableEq

/-- The frame actually emitted by a tick, if any. -/
def TickResult.frame (r : TickResult) : Option CANFrame :=
  r.canArgs.map fun a => CANcontrol a.1 a.2

/-- The body of `case SystemState::ON`, given the measured temperature
(the C++ code computes `measuredTemperature = interpolateTemperature(v)`
once and the rest of the branch depends only on that value):
level-interlock check, PID regulation, clamping, actuation,
overtemperature check, and the end-of-loop `CANcontrol` call. -/
def tickON (cfg : Config) (ls : LoopState) (levelSwitch : Bool)
    (measuredTemperature : ℚ) : TickResult :=
  if !levelSwitch then
    { s := { ls with currentState := SystemState.SAFETY_SHUTDOWN }
      pumpCmds := [0]
      fanCmds := [0]
      canArgs := some (ls.pumpSpeed, ls.fanSpeed)
      halted := false }
  else
    let pc := ls.pumpPID.compute cfg.tempSetpoint measuredTemperature
    let fc := ls.fanPID.compute cfg.tempSetpoint measuredTemperature
    let pumpSpeed := clamp pc.1
    let fanSpeed := clamp fc.1
    let regulated : LoopState :=
      { ls with pumpPID := pc.2, fanPID := fc.2,
                pumpSpeed := pumpSpeed, fanSpeed := fanSpeed }
    if measuredTemperature > cfg.safetyThreshold then
      { s := { regulated with currentState := SystemState.SAFETY_SHUTDOWN }
        pumpCmds := [pumpSpeed, 0]
        fanCmds := [fanSpeed, 0]
        canArgs := some (pumpSpeed, fanSpeed)
        halted := false }
    else
      { s := regulated
        pumpCmds := [pumpSpeed]
        fanCmds := [fanSpeed]
        canArgs := some (pumpSpeed, fanSpeed)
        halted := false }

/-- One iteration of `main`'s `while (true)` loop.  Inputs of the tick:
the coolant level switch and the sensor voltage (the reference simulates
the voltage with `1.0f + rand() % 3`; it is universally quantified here).
In `OFF` the ignition toggles; in `SAFETY_SHUTDOWN` the loop prints and
executes `return 0`, so the end-of-iteration `CANcontrol` call is never
reached on that path. -/
def tick (cfg : Config) (ls : LoopState) (levelSwitch : Bool)
    (sensorVoltage : ℚ) : TickResult :=
  match ls.currentState with
  | SystemState.OFF =>
      let ignitionSwitch := !ls.ignitionSwitch
      let s :=
        if ignitionSwitch then
          { ls with ignitionSwitch := ignitionSwitch,
                    currentState := SystemState.ON }
        else { ls with ignitionSwitch := ignitionSwitch }
      { s := s, pumpCmds := [], fanCmds := [],
        canArgs := some (ls.pumpSpeed, ls.fanSpeed), halted := false }
  | SystemState.ON =>
      tickON cfg ls levelSwitch (interpolateTemperature sensorVoltage)
  | SystemState.SAFETY_SHUTDOWN =>
      { s := ls, pumpCmds := [], fanCmds := [], canArgs := none,
        halted := true }

/-- Iterated ticks over a list of per-tick inputs `(levelSwitch, voltage)`. -/
def run (cfg : Config) (ls : LoopState) : List (Bool × ℚ) → LoopState
  | [] => ls
  | (lvl, v) :: rest => run cfg (tick cfg ls lvl v).s rest

/-- The whitespace characters `std::stof` (via `strtof`) skips before the
number, in the default locale. -/
def isSpaceChar (c : Char) : Bool :=
  c == ' ' || c == '\t' || c == '\n' || c == '\x0b' || c == '\x0c' || c == '\r'

/-- Longest digit run at the head of the list, and the rest
(`strtof` consumes maximal digit runs). -/
def spanDigits : List Char → List Char × List Char
  | [] => ([], [])
  | c :: cs =>
      if c.isDigit then
        let r := spanDigits cs
        (c :: r.1, r.2)
      else ([], c :: cs)

/-- The natural number denoted by a list of decimal digits. -/
def natOfDigits (ds : List Char) : ℕ :=
  ds.foldl (fun n c => 10 * n + (c.toNat - 48)) 0

/-- The exact value of `intPart.fracPart`. -/
def decimalVal (intPart fracPart : List Char) : ℚ :=
  (natOfDigits intPart : ℚ) + (natOfDigits fracPart : ℚ) / 10 ^ fracPart.length

/-- The mantissa of the `strtof` decimal grammar: digits with an optional
fraction (`digits[.digits]` or `.digits`); fails when there is no digit at
all, returning otherwise the value and the unconsumed characters. -/
def mantissaCore (cs : List Char) : Option (ℚ × List Char) :=
  let ip := spanDigits cs
  match ip.2 with
  | '.' :: r2 =>
      let fp := spanDigits r2
      if ip.1.isEmpty && fp.1.isEmpty then none
      else some (decimalVal ip.1 fp.1, fp.2)
  | r1 => if ip.1.isEmpty then none else some ((natOfDigits ip.1 : ℚ), r1)

/-- The digits of an exponent: when no digit follows, the whole exponent
part is left unconsumed (as `strtof` backs off to the end of the mantissa,
`orig`). -/
def expDigits (neg : Bool) (r orig : List Char) : ℤ × List Char :=
  let ds := spanDigits r
  if ds.1.isEmpty then (0, orig)
  else (if neg then -(natOfDigits ds.1 : ℤ) else (natOfDigits ds.1 : ℤ), ds.2)

/-- The optional exponent of the `strtof` decimal grammar:
`(e|E)[+|-]digits`. -/
def expPart (cs : List Char) : ℤ × List Char :=
  match cs with
  | 'e' :: '+' :: r2 => expDigits false r2 cs
  | 'e' :: '-' :: r2 => expDigits true r2 cs
  | 'e' :: r => expDigits false r cs
  | 'E' :: '+' :: r2 => expDigits false r2 cs
  | 'E' :: '-' :: r2 => expDigits true r2 cs
  | 'E' :: r => expDigits false r cs
  | _ => (0, cs)

/-- Modelled from the spec and the C++ standard library: the decimal part
of the `strtof` grammar underlying `std::stof` (the library function is
not part of this repository).  Skips leading whitespace, reads an optional
sign, a mantissa and an optional exponent; returns the exact value and the
unconsumed suffix, or `none` when no conversion is possible (`std::stof`
then throws `std::invalid_argument`).  Like `std::stof` called without a
position argument, a nonempty unconsumed suffix is NOT an error. -/
def stofCore (cs : List Char) : Option (ℚ × List Char) :=
  let t := cs.dropWhile isSpaceChar
  let sb : Bool × List Char :=
    match t with
    | '-' :: r => (true, r)
    | '+' :: r => (false, r)
    | _ => (false, t)
  match mantissaCore sb.2 with
  | none => none
  | some (m, r) =>
      let e := expPart r
      let v := m * (10 : ℚ) ^ e.1
      some (if sb.1 then -v else v, e.2)

/-- `std::stof(s)`: the parsed value, or `none` for a thrown exception. -/
def stof (s : String) : Option ℚ :=
  (stofCore s.data).map Prod.fst

/-- A string that is a well-formed real-number literal in its entirety:
`stofCore` succeeds and consumes every character. -/
def wellFormedReal (s : String) : Bool :=
  match stofCore s.data with
  | some (_, []) => true
  | _ => false

/-- The argument parsing at the top of `main`: no arguments keep the
defaults `(50.0, 70.0)`; with arguments, `argv[1]` (and, when present,
`argv[2]`) are parsed by `std::stof` inside one `try` block, and any
exception makes `main` print the error and `return 1` (modelled as
`none`) without entering the control loop.  Arguments beyond the second
are ignored. -/
def parseArgs (args : List String) : Option Config :=
  match args with
  | [] => some { tempSetpoint := 50, safetyThreshold := 70 }
  | [a] => (stof a).map fun v => { tempSetpoint := v, safetyThreshold := 70 }
  | a :: b :: _ =>
      match stof a, stof b with
      | some v, some w => some { tempSetpoint := v, safetyThreshold := w }
      | _, _ => none


/-! ### Spec-side definitions used by refinement-style claims -/

/-- The spec's breakpoint table `(voltage threshold, temperature)`,
ordered by descending voltage, as listed in §4.1 of the specification. -/
def specBreakpoints : List (ℚ × ℚ) :=
  [(4.771, -20), (4.642, -10), (4.438, 0), (4.141, 10), (3.751, 20),
   (3.325, 30), (2.838, 40), (2.500, 50), (1.915, 60), (1.212, 80),
   (0.749, 100)]

/-- The spec's "greater-or-equal step function": scan the table in order
and return the temperature of the first threshold the voltage meets or
exceeds, with fallback `120`. -/
def specStepLookup : List (ℚ × ℚ) → ℚ → ℚ
  | [], _ => 120
  | e :: rest, v => if v ≥ e.1 then e.2 else specStepLookup rest v

/-! ### Helper lemmas -/

/-- `clamp` sends negative outputs to exactly `0`. -/
theorem clamp_of_neg {x : ℚ} (h : x < 0) : clamp x = 0 := by
  simp [clamp, h]

/-- `clamp` sends outputs above `100` to exactly `100`. -/
theorem clamp_of_gt {x : ℚ} (h : 100 < x) : clamp x = 100 := by
  have hx : ¬ x < 0 := by linarith
  simp [clamp, hx, h]

/-- The clamped value always lies in `[0, 100]`. -/
theorem clamp_mem (x : ℚ) : 0 ≤ clamp x ∧ clamp x ≤ 100 := by
  unfold clamp
  split_ifs <;> constructor <;> linarith

/-! ### Claims -/

/-- Claim C3: `interpolateTemperature` is a total pure function realizing
exactly the spec's greater-or-equal step table (scanned from the highest
breakpoint down, so the first hit is the highest threshold met, the table
being strictly descending), with fallback `120` below every breakpoint;
in particular it maps `4.771 ↦ -20`, `2.838 ↦ 40` and `0.1 ↦ 120`. -/
theorem claim3_interpolate_matches_step_table :
    (∀ v : ℚ, interpolateTemperature v = specStepLookup specBreakpoints v)
    ∧ List.Pairwise (fun a b : ℚ × ℚ => b.1 < a.1) specBreakpoints
    ∧ interpolateTemperature 4.771 = -20
    ∧ interpolateTemperature 2.838 = 40
    ∧ interpolateTemperature 0.1 = 120 := by
  refine ⟨fun v => rfl, ?_, ?_, ?_, ?_⟩
  · simp [specBreakpoints]
    norm_num
  · norm_num [interpolateTemperature]
  · norm_num [interpolateTemperature]
  · norm_num [interpolateTemperature]

/-- `interpolateTemperature` and the spec's step lookup over the
breakpoint table are the same if-chain, definitionally. -/
theorem interp_eq_stepLookup (v : ℚ) :
    interpolateTemperature v = specStepLookup specBreakpoints v := rfl

/-- A lower bound on every step-lookup result: any `c` below the fallback
`120` and below every temperature of the table bounds the lookup. -/
theorem stepLookup_ge (c : ℚ) (h120 : c ≤ 120) :
    ∀ (l : List (ℚ × ℚ)), (∀ p ∈ l, c ≤ p.2) → ∀ v, c ≤ specStepLookup l v := by
  intro l
  induction l with
  | nil => intro _ v; exact h120
  | cons e rest ih =>
      intro h v
      unfold specStepLookup
      split
      · exact h e (List.mem_cons_self e rest)
      · exact ih (fun p hp => h p (List.mem_cons_of_mem e hp)) v

/-- Step lookup is antitone in the voltage whenever the temperatures are
non-decreasing along the table and all lie below the fallback `120`. -/
theorem stepLookup_anti :
    ∀ (l : List (ℚ × ℚ)),
      List.Pairwise (fun a b : ℚ × ℚ => a.2 ≤ b.2) l →
      (∀ p ∈ l, p.2 ≤ 120) →
      ∀ v1 v2 : ℚ, v1 ≤ v2 → specStepLookup l v2 ≤ specStepLookup l v1 := by
  intro l
  induction l with
  | nil => intro _ _ v1 v2 _; exact le_refl _
  | cons e rest ih =>
      intro hp h120 v1 v2 h12
      rw [List.pairwise_cons] at hp
      by_cases h2 : v2 ≥ e.1
      · have hv2 : specStepLookup (e :: rest) v2 = e.2 := by
          simp only [specStepLookup]; rw [if_pos h2]
        rw [hv2]
        simp only [specStepLookup]
        split
        · exact le_refl _
        · exact stepLookup_ge e.2 (h120 e (List.mem_cons_self e rest))
            rest (fun p hp2 => hp.1 p hp2) v1
      · have h1 : ¬ v1 ≥ e.1 := fun hc => h2 (le_trans hc h12)
        have hv2 : specStepLookup (e :: rest) v2 = specStepLookup rest v2 := by
          simp only [specStepLookup]; rw [if_neg h2]
        have hv1 : specStepLookup (e :: rest) v1 = specStepLookup rest v1 := by
          simp only [specStepLookup]; rw [if_neg h1]
        rw [hv1, hv2]
        exact ih hp.2 (fun p hp2 => h120 p (List.mem_cons_of_mem e hp2)) v1 v2 h12

/-- Claim C8: `interpolateTemperature` is monotonically non-increasing:
`v1 < v2` implies `interpolateTemperature v1 ≥ interpolateTemperature v2`. -/
theorem claim8_interpolate_antitone (v1 v2 : ℚ) (h : v1 < v2) :
    interpolateTemperature v1 ≥ interpolateTemperature v2 := by
  rw [interp_eq_stepLookup, interp_eq_stepLookup]
  refine stepLookup_anti specBreakpoints ?_ ?_ v1 v2 h.le
  · simp [specBreakpoints]
    norm_num
  · simp [specBreakpoints]
    norm_num

/-- Witness for C8 at `v1 = 1 < 2 = v2`. -/
theorem claim8_witness :
    (1 : ℚ) < 2 ∧ interpolateTemperature 1 ≥ interpolateTemperature 2 :=
  ⟨by norm_num, claim8_interpolate_antitone 1 2 (by norm_num)⟩

/-- Claim C4: `PIDController.compute` realizes exactly the stated
recurrence — `error = setpoint − measured`, integral accumulated without
any bound, `derivative = error − prevError`, output
`Kp·error + Ki·integral + Kd·derivative` with no clamping — and a fresh
controller with gains `(1.0, 0.1, 0.01)` returns a value within `0.1`
of `5.5` on its first call `compute 50 45` (the exact value is `5.55`). -/
theorem claim4_pid_recurrence :
    (∀ (c : PIDController) (sp m : ℚ),
      (c.compute sp m).1 =
          c.Kp * (sp - m) + c.Ki * (c.integral + (sp - m))
            + c.Kd * ((sp - m) - c.prevError)
        ∧ (c.compute sp m).2 =
          { c with integral := c.integral + (sp - m), prevError := sp - m })
    ∧ ((PIDController.init 1 0.1 0.01).compute 50 45).1 = 5.55
    ∧ |((PIDController.init 1 0.1 0.01).compute 50 45).1 - 5.5| ≤ 0.1 := by
  refine ⟨fun c sp m => ⟨rfl, rfl⟩, ?_, ?_⟩
  · norm_num [PIDController.init, PIDController.compute]
  · norm_num [abs_le, PIDController.init, PIDController.compute]

/-- A helper: the floor of `127.5` is `127` and its rounding is `128`. -/
theorem floor_half_values :
    (⌊(127.5 : ℚ)⌋ = 127) ∧ (round (127.5 : ℚ) = 128) := by
  constructor
  · rw [Int.floor_eq_iff]
    norm_num
  · rw [round_eq, show (127.5 : ℚ) + 1 / 2 = 128 by norm_num]
    norm_num

/-- Counterexample for C6: the claimed rounding convention
`byte = round(speed / 100 * 255)` fails at the input `(50.0, 0.0)` —
the code's cast truncates `127.5` to `127`, while rounding to nearest
gives `128`. -/
theorem claim6_counterexample :
    ¬ ((CANcontrol 50 0).data.get? 2
        = some (round ((50 : ℚ) / 100 * 255)).toNat) := by
  have h1 : ((50 : ℚ) / 100 * 255) = 127.5 := by norm_num
  simp only [CANcontrol, scaleByte, h1, floor_half_values.1, floor_half_values.2]
  decide

/-- Claim C6 as amended: the frame encoder tags the 8-byte payload with
identifier `0x18FF408F`; byte offset 2 is the scaled pump speed and byte
offset 6 the scaled fan speed, where the scaling is the TRUNCATION
(floor, for nonnegative speeds) of `speed / 100 * 255`, not rounding to
nearest; the other six bytes are `0`, both scaled bytes fit in a byte for
speeds in `[0,100]`, and encoding `(50.0, 0.0)` gives byte offset 2 =
`127` with all remaining data bytes `0`. -/
theorem claim6_frame_layout_truncating :
    (∀ p f : ℚ, 0 ≤ p → p ≤ 100 → 0 ≤ f → f ≤ 100 →
      (CANcontrol p f).id = 0x18FF408F
      ∧ (CANcontrol p f).data
          = [0, 0, (⌊p / 100 * 255⌋).toNat, 0, 0, 0,
             (⌊f / 100 * 255⌋).toNat, 0]
      ∧ (⌊p / 100 * 255⌋).toNat ≤ 255
      ∧ (⌊f / 100 * 255⌋).toNat ≤ 255)
    ∧ (CANcontrol 50 0).id = 0x18FF408F
    ∧ (CANcontrol 50 0).data = [0, 0, 127, 0, 0, 0, 0, 0] := by
  have hb : ∀ x : ℚ, 0 ≤ x → x ≤ 100 → (⌊x / 100 * 255⌋).toNat ≤ 255 := by
    intro x h0 h100
    have hle : x / 100 * 255 ≤ 255 := by linarith
    have hfl : ⌊x / 100 * 255⌋ ≤ (255 : ℤ) := by
      have := Int.floor_le_floor hle
      simpa using this
    omega
  refine ⟨fun p f hp0 hp1 hf0 hf1 => ⟨rfl, rfl, hb p hp0 hp1, hb f hf0 hf1⟩, rfl, ?_⟩
  have h1 : ((50 : ℚ) / 100 * 255) = 127.5 := by norm_num
  have h2 : ((0 : ℚ) / 100 * 255) = 0 := by norm_num
  simp [CANcontrol, scaleByte, h1, h2, floor_half_values.1]

/-! ### Tick reduction lemmas -/

/-- The `ON` branch under a coolant-level fault: zero both actuators,
latch `SAFETY_SHUTDOWN`, skip regulation; the stored speeds are untouched
and are what the end-of-loop `CANcontrol` call receives. -/
theorem tickON_level_fault (cfg : Config) (ls : LoopState) (t : ℚ) :
    tickON cfg ls false t =
      { s := { ls with currentState := SystemState.SAFETY_SHUTDOWN }
        pumpCmds := [0], fanCmds := [0]
        canArgs := some (ls.pumpSpeed, ls.fanSpeed), halted := false } := rfl

/-- The `ON` branch with sufficient coolant and overtemperature: the
regulators run, their clamped outputs are applied, then both actuators
are zeroed and `SAFETY_SHUTDOWN` latches; the stored speeds keep the
clamped commands of this tick. -/
theorem tickON_overtemp (cfg : Config) (ls : LoopState) (t : ℚ)
    (h : cfg.safetyThreshold < t) :
    tickON cfg ls true t =
      { s := { ls with pumpPID := (ls.pumpPID.compute cfg.tempSetpoint t).2,
                       fanPID := (ls.fanPID.compute cfg.tempSetpoint t).2,
                       pumpSpeed := clamp (ls.pumpPID.compute cfg.tempSetpoint t).1,
                       fanSpeed := clamp (ls.fanPID.compute cfg.tempSetpoint t).1,
                       currentState := SystemState.SAFETY_SHUTDOWN }
        pumpCmds := [clamp (ls.pumpPID.compute cfg.tempSetpoint t).1, 0]
        fanCmds := [clamp (ls.fanPID.compute cfg.tempSetpoint t).1, 0]
        canArgs := some (clamp (ls.pumpPID.compute cfg.tempSetpoint t).1,
                         clamp (ls.fanPID.compute cfg.tempSetpoint t).1)
        halted := false } := by
  simp [tickON, h]

/-- The `ON` branch with sufficient coolant and no overtemperature:
normal regulation. -/
theorem tickON_regulate (cfg : Config) (ls : LoopState) (t : ℚ)
    (h : ¬ cfg.safetyThreshold < t) :
    tickON cfg ls true t =
      { s := { ls with pumpPID := (ls.pumpPID.compute cfg.tempSetpoint t).2,
                       fanPID := (ls.fanPID.compute cfg.tempSetpoint t).2,
                       pumpSpeed := clamp (ls.pumpPID.compute cfg.tempSetpoint t).1,
                       fanSpeed := clamp (ls.fanPID.compute cfg.tempSetpoint t).1 }
        pumpCmds := [clamp (ls.pumpPID.compute cfg.tempSetpoint t).1]
        fanCmds := [clamp (ls.fanPID.compute cfg.tempSetpoint t).1]
        canArgs := some (clamp (ls.pumpPID.compute cfg.tempSetpoint t).1,
                         clamp (ls.fanPID.compute cfg.tempSetpoint t).1)
        halted := false } := by
  simp [tickON, h]

/-- In state `OFF` a tick toggles the ignition, transitions to `ON` when
the toggled value is active, issues no actuator commands and emits a
frame with the stored speeds. -/
theorem tick_eq_off (cfg : Config) (ls : LoopState) (lvl : Bool) (v : ℚ)
    (h : ls.currentState = SystemState.OFF) :
    tick cfg ls lvl v =
      { s := { ls with ignitionSwitch := !ls.ignitionSwitch,
                       currentState := (if ls.ignitionSwitch then SystemState.OFF
                                        else SystemState.ON) }
        pumpCmds := [], fanCmds := []
        canArgs := some (ls.pumpSpeed, ls.fanSpeed), halted := false } := by
  unfold tick
  rw [h]
  cases hb : ls.ignitionSwitch <;> simp [hb, h]

/-- In state `ON` a tick is the `ON` branch applied to the interpolated
temperature. -/
theorem tick_eq_on (cfg : Config) (ls : LoopState) (lvl : Bool) (v : ℚ)
    (h : ls.currentState = SystemState.ON) :
    tick cfg ls lvl v = tickON cfg ls lvl (interpolateTemperature v) := by
  unfold tick; rw [h]

/-- In state `SAFETY_SHUTDOWN` a tick changes nothing, issues no
commands, emits no frame and returns from the process. -/
theorem tick_eq_shutdown (cfg : Config) (ls : LoopState) (lvl : Bool) (v : ℚ)
    (h : ls.currentState = SystemState.SAFETY_SHUTDOWN) :
    tick cfg ls lvl v =
      { s := ls, pumpCmds := [], fanCmds := [], canArgs := none,
        halted := true } := by
  unfold tick; rw [h]

/-! ### Concrete states for the end-to-end scenario and the fault demos -/

/-- The spec's end-to-end configuration: setpoint 50, threshold 70
(also `main`'s defaults). -/
def scenarioCfg : Config := { tempSetpoint := 50, safetyThreshold := 70 }

/-- The loop state after the initial `OFF` tick: the simulated ignition
toggle turns the system `ON` with fresh PID controllers. -/
def scenarioStart : LoopState := (tick scenarioCfg initLoopState true 2).s

/-- First scenario tick: measured temperature 60, level sufficient. -/
def scenarioTick1 : TickResult := tickON scenarioCfg scenarioStart true 60

/-- Second scenario tick: measured temperature 65. -/
def scenarioTick2 : TickResult := tickON scenarioCfg scenarioTick1.s true 65

/-- Third scenario tick: measured temperature 75, above the threshold. -/
def scenarioTick3 : TickResult := tickON scenarioCfg scenarioTick2.s true 75

/-- A loop state already latched in `SAFETY_SHUTDOWN`. -/
def shutdownDemo : LoopState :=
  { initLoopState with currentState := SystemState.SAFETY_SHUTDOWN }

/-- A loop state in `ON` whose stored speeds hold the nonzero clamped
commands of a previous tick. -/
def levelFaultDemo : LoopState :=
  { initLoopState with currentState := SystemState.ON, pumpSpeed := 42, fanSpeed := 7 }

/-- Claim C1: in state `ON`, a coolant-level fault immediately commands
both actuators to zero, latches `SAFETY_SHUTDOWN` and skips regulation
(the PID states are untouched); otherwise both regulators run and an
overtemperature is checked only after the clamped commands were applied,
the actuators then being zeroed and `SAFETY_SHUTDOWN` entered; and in the
end-to-end scenario (setpoint 50, threshold 70, level sufficient,
measured temperatures 60, 65, 75) the third tick's final actuator
commands are `(0, 0)` and the state latches `SAFETY_SHUTDOWN`. -/
theorem claim1_fault_order_and_scenario :
    (∀ (cfg : Config) (ls : LoopState) (t : ℚ),
      (tickON cfg ls false t).pumpCmds = [0]
      ∧ (tickON cfg ls false t).fanCmds = [0]
      ∧ (tickON cfg ls false t).s.currentState = SystemState.SAFETY_SHUTDOWN
      ∧ (tickON cfg ls false t).s.pumpPID = ls.pumpPID
      ∧ (tickON cfg ls false t).s.fanPID = ls.fanPID)
    ∧ (∀ (cfg : Config) (ls : LoopState) (t : ℚ),
      cfg.safetyThreshold < t →
      (tickON cfg ls true t).pumpCmds
          = [clamp (ls.pumpPID.compute cfg.tempSetpoint t).1, 0]
      ∧ (tickON cfg ls true t).fanCmds
          = [clamp (ls.fanPID.compute cfg.tempSetpoint t).1, 0]
      ∧ (tickON cfg ls true t).s.currentState = SystemState.SAFETY_SHUTDOWN)
    ∧ (scenarioTick1.s.currentState = SystemState.ON
      ∧ scenarioTick2.s.currentState = SystemState.ON
      ∧ scenarioTick3.pumpCmds.getLast? = some 0
      ∧ scenarioTick3.fanCmds.getLast? = some 0
      ∧ scenarioTick3.s.currentState = SystemState.SAFETY_SHUTDOWN) := by
  refine ⟨fun cfg ls t => ?_, fun cfg ls t h => ?_, ?_⟩
  · rw [tickON_level_fault]
    exact ⟨rfl, rfl, rfl, rfl, rfl⟩
  · rw [tickON_overtemp cfg ls t h]
    exact ⟨rfl, rfl, rfl⟩
  · refine ⟨?_, ?_, ?_, ?_, ?_⟩ <;>
      norm_num [scenarioTick3, scenarioTick2, scenarioTick1, scenarioStart,
        scenarioCfg, tick, tickON, initLoopState, PIDController.init,
        PIDController.compute, clamp, interpolateTemperature]

/-- Witness for C1 at the scenario state and temperature 75 > 70. -/
theorem claim1_witness :
    scenarioCfg.safetyThreshold < 75
    ∧ (tickON scenarioCfg scenarioStart true 75).s.currentState
        = SystemState.SAFETY_SHUTDOWN :=
  ⟨by norm_num [scenarioCfg],
   (claim1_fault_order_and_scenario.2.1 scenarioCfg scenarioStart 75
      (by norm_num [scenarioCfg])).2.2⟩

/-- Claim C2: `SAFETY_SHUTDOWN` is terminal — once the state is
`SAFETY_SHUTDOWN`, every tick leaves the whole loop state unchanged,
issues no pump or fan command, halts the process, and any sequence of
further inputs leaves the state fixed. -/
theorem claim2_shutdown_terminal (cfg : Config) (ls : LoopState)
    (h : ls.currentState = SystemState.SAFETY_SHUTDOWN) :
    (∀ (lvl : Bool) (v : ℚ),
      (tick cfg ls lvl v).s = ls
      ∧ (tick cfg ls lvl v).pumpCmds = []
      ∧ (tick cfg ls lvl v).fanCmds = []
      ∧ (tick cfg ls lvl v).halted = true)
    ∧ ∀ inputs : List (Bool × ℚ), run cfg ls inputs = ls := by
  have hstep : ∀ (lvl : Bool) (v : ℚ),
      tick cfg ls lvl v =
        { s := ls, pumpCmds := [], fanCmds := [], canArgs := none,
          halted := true } :=
    fun lvl v => tick_eq_shutdown cfg ls lvl v h
  refine ⟨fun lvl v => by rw [hstep]; exact ⟨rfl, rfl, rfl, rfl⟩, ?_⟩
  intro inputs
  induction inputs with
  | nil => rfl
  | cons p rest ih =>
      obtain ⟨lvl, v⟩ := p
      simp only [run, hstep]
      exact ih

/-- Witness for C2 at a concrete latched state and input sequence. -/
theorem claim2_witness :
    shutdownDemo.currentState = SystemState.SAFETY_SHUTDOWN
    ∧ run scenarioCfg shutdownDemo [(true, 1), (false, 3)] = shutdownDemo :=
  ⟨rfl, (claim2_shutdown_terminal scenarioCfg shutdownDemo rfl).2 _⟩

/-- Claim C5: in state `ON` with sufficient coolant the applied actuator
commands are exactly the PID outputs clamped to `[0, 100]` (negative
outputs give `0`, outputs above `100` give `100`), the stored speeds and
the values handed to the frame encoder are those clamped commands, and
the `[0, 100]` invariant is preserved by every tick for every command
issued and every value handed to an actuator or to the encoder. -/
theorem claim5_clamped_commands :
    (∀ x : ℚ, x < 0 → clamp x = 0)
    ∧ (∀ x : ℚ, 100 < x → clamp x = 100)
    ∧ (∀ x : ℚ, 0 ≤ clamp x ∧ clamp x ≤ 100)
    ∧ (∀ (cfg : Config) (ls : LoopState) (v : ℚ),
        ls.currentState = SystemState.ON →
        (tick cfg ls true v).pumpCmds.head?
            = some (clamp (ls.pumpPID.compute cfg.tempSetpoint
                (interpolateTemperature v)).1)
        ∧ (tick cfg ls true v).fanCmds.head?
            = some (clamp (ls.fanPID.compute cfg.tempSetpoint
                (interpolateTemperature v)).1)
        ∧ (tick cfg ls true v).s.pumpSpeed
            = clamp (ls.pumpPID.compute cfg.tempSetpoint
                (interpolateTemperature v)).1
        ∧ (tick cfg ls true v).s.fanSpeed
            = clamp (ls.fanPID.compute cfg.tempSetpoint
                (interpolateTemperature v)).1
        ∧ (tick cfg ls true v).canArgs
            = some ((tick cfg ls true v).s.pumpSpeed,
                    (tick cfg ls true v).s.fanSpeed))
    ∧ (∀ (cfg : Config) (ls : LoopState) (lvl : Bool) (v : ℚ),
        0 ≤ ls.pumpSpeed → ls.pumpSpeed ≤ 100 →
        0 ≤ ls.fanSpeed → ls.fanSpeed ≤ 100 →
        (0 ≤ (tick cfg ls lvl v).s.pumpSpeed
          ∧ (tick cfg ls lvl v).s.pumpSpeed ≤ 100)
        ∧ (0 ≤ (tick cfg ls lvl v).s.fanSpeed
          ∧ (tick cfg ls lvl v).s.fanSpeed ≤ 100)
        ∧ (∀ c ∈ (tick cfg ls lvl v).pumpCmds, 0 ≤ c ∧ c ≤ 100)
        ∧ (∀ c ∈ (tick cfg ls lvl v).fanCmds, 0 ≤ c ∧ c ≤ 100)
        ∧ (∀ p f : ℚ, (tick cfg ls lvl v).canArgs = some (p, f) →
            (0 ≤ p ∧ p ≤ 100) ∧ (0 ≤ f ∧ f ≤ 100))) := by
  refine ⟨fun x h => clamp_of_neg h, fun x h => clamp_of_gt h,
    fun x => clamp_mem x, fun cfg ls v h => ?_, fun cfg ls lvl v hp0 hp1 hf0 hf1 => ?_⟩
  · rw [tick_eq_on cfg ls true v h]
    by_cases ht : cfg.safetyThreshold < interpolateTemperature v
    · rw [tickON_overtemp cfg ls _ ht]
      exact ⟨rfl, rfl, rfl, rfl, rfl⟩
    · rw [tickON_regulate cfg ls _ ht]
      exact ⟨rfl, rfl, rfl, rfl, rfl⟩
  · cases hst : ls.currentState with
    | OFF =>
        rw [tick_eq_off cfg ls lvl v hst]
        refine ⟨⟨hp0, hp1⟩, ⟨hf0, hf1⟩,
          fun c hc => absurd hc (List.not_mem_nil c),
          fun c hc => absurd hc (List.not_mem_nil c), ?_⟩
        intro p f hpf
        obtain ⟨rfl, rfl⟩ := Prod.mk.inj (Option.some.inj hpf)
        exact ⟨⟨hp0, hp1⟩, ⟨hf0, hf1⟩⟩
    | ON =>
        rw [tick_eq_on cfg ls lvl v hst]
        cases lvl with
        | false =>
            rw [tickON_level_fault]
            refine ⟨⟨hp0, hp1⟩, ⟨hf0, hf1⟩, ?_, ?_, ?_⟩
            · intro c hc
              rw [List.mem_singleton.mp hc]
              norm_num
            · intro c hc
              rw [List.mem_singleton.mp hc]
              norm_num
            · intro p f hpf
              obtain ⟨rfl, rfl⟩ := Prod.mk.inj (Option.some.inj hpf)
              exact ⟨⟨hp0, hp1⟩, ⟨hf0, hf1⟩⟩
        | true =>
            have hmem : ∀ x : ℚ, 0 ≤ clamp x ∧ clamp x ≤ 100 := clamp_mem
            by_cases ht : cfg.safetyThreshold < interpolateTemperature v
            · rw [tickON_overtemp cfg ls _ ht]
              refine ⟨hmem _, hmem _, ?_, ?_, ?_⟩
              · intro c hc
                rcases List.mem_cons.mp hc with hc1 | hc1
                · rw [hc1]; exact hmem _
                · rw [List.mem_singleton.mp hc1]; norm_num
              · intro c hc
                rcases List.mem_cons.mp hc with hc1 | hc1
                · rw [hc1]; exact hmem _
                · rw [List.mem_singleton.mp hc1]; norm_num
              · intro p f hpf
                obtain ⟨rfl, rfl⟩ := Prod.mk.inj (Option.some.inj hpf)
                exact ⟨hmem _, hmem _⟩
            · rw [tickON_regulate cfg ls _ ht]
              refine ⟨hmem _, hmem _, ?_, ?_, ?_⟩
              · intro c hc
                rw [List.mem_singleton.mp hc]
                exact hmem _
              · intro c hc
                rw [List.mem_singleton.mp hc]
                exact hmem _
              · intro p f hpf
                obtain ⟨rfl, rfl⟩ := Prod.mk.inj (Option.some.inj hpf)
                exact ⟨hmem _, hmem _⟩
    | SAFETY_SHUTDOWN =>
        rw [tick_eq_shutdown cfg ls lvl v hst]
        refine ⟨⟨hp0, hp1⟩, ⟨hf0, hf1⟩,
          fun c hc => absurd hc (List.not_mem_nil c),
          fun c hc => absurd hc (List.not_mem_nil c), ?_⟩
        intro p f hpf
        exact Option.noConfusion hpf

/-- Witness for C5: clamping at `-5` and `200`, and the regulation path
at the scenario's starting state. -/
theorem claim5_witness :
    clamp (-5) = 0 ∧ clamp 200 = 100
    ∧ (tick scenarioCfg scenarioStart true 2).s.pumpSpeed
        = clamp ((scenarioStart.pumpPID.compute scenarioCfg.tempSetpoint
            (interpolateTemperature 2)).1)
    ∧ (0 ≤ (tick scenarioCfg shutdownDemo true 1).s.pumpSpeed
        ∧ (tick scenarioCfg shutdownDemo true 1).s.pumpSpeed ≤ 100) :=
  ⟨claim5_clamped_commands.1 (-5) (by norm_num),
   claim5_clamped_commands.2.1 200 (by norm_num),
   (claim5_clamped_commands.2.2.2.1 scenarioCfg scenarioStart 2 rfl).2.2.1,
   (claim5_clamped_commands.2.2.2.2 scenarioCfg shutdownDemo true 1
      (by norm_num [shutdownDemo, initLoopState])
      (by norm_num [shutdownDemo, initLoopState])
      (by norm_num [shutdownDemo, initLoopState])
      (by norm_num [shutdownDemo, initLoopState])).1⟩

/-- Counterexample for C7: in `SAFETY_SHUTDOWN` the loop body executes
`return 0` before the end-of-iteration `CANcontrol` call, so a tick taken
in `SAFETY_SHUTDOWN` emits no frame — the frame encoder is NOT invoked
once per tick in every system state. -/
theorem claim7_counterexample :
    shutdownDemo.currentState = SystemState.SAFETY_SHUTDOWN
    ∧ (tick scenarioCfg shutdownDemo true 1).frame = none
    ∧ (tick scenarioCfg shutdownDemo true 1).halted = true :=
  ⟨rfl, rfl, rfl⟩

/-- Claim C7 as amended: a tick emits exactly one status frame whenever
the state at the start of the tick is `OFF` or `ON` — including the tick
on which a fault latches `SAFETY_SHUTDOWN` — but a tick started in
`SAFETY_SHUTDOWN` terminates the process without emitting a frame. -/
theorem claim7_frame_iff_not_shutdown (cfg : Config) (ls : LoopState)
    (lvl : Bool) (v : ℚ) :
    ((tick cfg ls lvl v).frame = none
      ↔ ls.currentState = SystemState.SAFETY_SHUTDOWN)
    ∧ ((tick cfg ls lvl v).halted = true
      ↔ ls.currentState = SystemState.SAFETY_SHUTDOWN) := by
  cases hst : ls.currentState with
  | OFF =>
      rw [tick_eq_off cfg ls lvl v hst]
      simp [TickResult.frame]
  | ON =>
      rw [tick_eq_on cfg ls lvl v hst]
      cases lvl with
      | false =>
          rw [tickON_level_fault]
          simp [TickResult.frame]
      | true =>
          by_cases ht : cfg.safetyThreshold < interpolateTemperature v
          · rw [tickON_overtemp cfg ls _ ht]
            simp [TickResult.frame]
          · rw [tickON_regulate cfg ls _ ht]
            simp [TickResult.frame]
  | SAFETY_SHUTDOWN =>
      rw [tick_eq_shutdown cfg ls lvl v hst]
      simp [TickResult.frame]

/-- Witness for C6 at pump speed 50 and fan speed 0. -/
theorem claim6_witness :
    (CANcontrol 50 0).id = 0x18FF408F
    ∧ (CANcontrol 50 0).data
        = [0, 0, (⌊(50 : ℚ) / 100 * 255⌋).toNat, 0, 0, 0,
           (⌊(0 : ℚ) / 100 * 255⌋).toNat, 0] :=
  ⟨(claim6_frame_layout_truncating.1 50 0 (by norm_num) (by norm_num)
      (by norm_num) (by norm_num)).1,
   (claim6_frame_layout_truncating.1 50 0 (by norm_num) (by norm_num)
      (by norm_num) (by norm_num)).2.1⟩

/-- Claim C9: on the tick on which a fault latches `SAFETY_SHUTDOWN` the
actuators are commanded to zero but the stored `pumpSpeed`/`fanSpeed`
variables are not zeroed, so the frame emitted at the end of that tick
encodes the pre-shutdown values: for a coolant-level fault the stored
speeds of the previous tick, for an overtemperature fault the clamped
commands computed this tick; concretely, a level fault with stored speeds
`(42, 7)` still emits the frame for `(42, 7)`, not for `(0, 0)`. -/
theorem claim9_fault_frame_preserves_speeds :
    (∀ (cfg : Config) (ls : LoopState) (v : ℚ),
      ls.currentState = SystemState.ON →
      (tick cfg ls false v).s.pumpSpeed = ls.pumpSpeed
      ∧ (tick cfg ls false v).s.fanSpeed = ls.fanSpeed
      ∧ (tick cfg ls false v).frame
          = some (CANcontrol ls.pumpSpeed ls.fanSpeed)
      ∧ (tick cfg ls false v).pumpCmds = [0]
      ∧ (tick cfg ls false v).fanCmds = [0]
      ∧ (tick cfg ls false v).s.currentState = SystemState.SAFETY_SHUTDOWN)
    ∧ (∀ (cfg : Config) (ls : LoopState) (v : ℚ),
      ls.currentState = SystemState.ON →
      cfg.safetyThreshold < interpolateTemperature v →
      (tick cfg ls true v).s.pumpSpeed
          = clamp (ls.pumpPID.compute cfg.tempSetpoint
              (interpolateTemperature v)).1
      ∧ (tick cfg ls true v).s.fanSpeed
          = clamp (ls.fanPID.compute cfg.tempSetpoint
              (interpolateTemperature v)).1
      ∧ (tick cfg ls true v).frame
          = some (CANcontrol (tick cfg ls true v).s.pumpSpeed
              (tick cfg ls true v).s.fanSpeed)
      ∧ (tick cfg ls true v).pumpCmds.getLast? = some 0
      ∧ (tick cfg ls true v).fanCmds.getLast? = some 0)
    ∧ ((tick scenarioCfg levelFaultDemo false 2).frame
        = some (CANcontrol 42 7)
      ∧ (tick scenarioCfg levelFaultDemo false 2).pumpCmds = [0]
      ∧ (tick scenarioCfg levelFaultDemo false 2).fanCmds = [0]) := by
  refine ⟨fun cfg ls v h => ?_, fun cfg ls v h ht => ?_, ?_⟩
  · rw [tick_eq_on cfg ls false v h, tickON_level_fault]
    exact ⟨rfl, rfl, rfl, rfl, rfl, rfl⟩
  · rw [tick_eq_on cfg ls true v h, tickON_overtemp cfg ls _ ht]
    exact ⟨rfl, rfl, rfl, rfl, rfl⟩
  · rw [tick_eq_on scenarioCfg levelFaultDemo false 2 rfl, tickON_level_fault]
    exact ⟨rfl, rfl, rfl⟩

/-- Witness for C9 at the concrete level-fault state. -/
theorem claim9_witness :
    levelFaultDemo.currentState = SystemState.ON
    ∧ (tick scenarioCfg levelFaultDemo false 2).s.pumpSpeed
        = levelFaultDemo.pumpSpeed :=
  ⟨rfl, (claim9_fault_frame_preserves_speeds.1 scenarioCfg
      levelFaultDemo 2 rfl).1⟩

/-- Counterexample for C10: `"50.0abc"` is not a well-formed real-number
literal, yet startup does not fail — `std::stof` parses the numeric
prefix `50.0` and silently ignores the trailing garbage, and the control
loop is entered with setpoint `50`. -/
theorem claim10_counterexample :
    wellFormedReal "50.0abc" = false
    ∧ parseArgs ["50.0abc"]
        = some { tempSetpoint := 50, safetyThreshold := 70 } := by
  constructor
  · simp +decide [wellFormedReal, stofCore, mantissaCore, decimalVal,
      natOfDigits, expPart, expDigits, isSpaceChar, spanDigits, List.dropWhile]
  · simp +decide [parseArgs, stof, stofCore, mantissaCore, decimalVal,
      natOfDigits, expPart, expDigits, isSpaceChar, spanDigits, List.dropWhile]

/-- Claim C10 as amended: startup fails with a fatal configuration error
(the control loop is never entered and no default is substituted) exactly
when `std::stof` can extract no numeric prefix at all from a supplied
argument; an argument consisting of a valid numeric prefix followed by
trailing garbage is silently accepted with the prefix's value.  An
argument with no parse, such as `"abc"`, is rejected. -/
theorem claim10_parse_failure_fatal :
    (∀ (a : String) (rest : List String),
      stof a = none → parseArgs (a :: rest) = none)
    ∧ (∀ (a b : String) (rest : List String) (w : ℚ),
      stof a = some w → stof b = none → parseArgs (a :: b :: rest) = none)
    ∧ stof "abc" = none
    ∧ parseArgs ["abc"] = none
    ∧ wellFormedReal "50.0" = true
    ∧ parseArgs ["50.0", "70.5"]
        = some { tempSetpoint := 50, safetyThreshold := 70.5 } := by
  refine ⟨fun a rest h => ?_, fun a b rest w ha hb => ?_, ?_, ?_, ?_, ?_⟩
  · cases rest with
    | nil => simp [parseArgs, h]
    | cons b r => simp [parseArgs, h]
  · simp [parseArgs, ha, hb]
  · simp +decide [stof, stofCore, mantissaCore, decimalVal,
      natOfDigits, expPart, expDigits, isSpaceChar, spanDigits, List.dropWhile]
  · simp +decide [parseArgs, stof, stofCore, mantissaCore, decimalVal,
      natOfDigits, expPart, expDigits, isSpaceChar, spanDigits, List.dropWhile]
  · simp +decide [wellFormedReal, stofCore, mantissaCore, decimalVal,
      natOfDigits, expPart, expDigits, isSpaceChar, spanDigits, List.dropWhile]
  · simp +decide [parseArgs, stof, stofCore, mantissaCore, decimalVal,
      natOfDigits, expPart, expDigits, isSpaceChar, spanDigits, List.dropWhile]
    norm_num

/-- Witness for C10 at the unparsable argument `"abc"`. -/
theorem claim10_witness :
    stof "abc" = none ∧ parseArgs ["abc", "70"] = none := by
  have h : stof "abc" = none := by
    simp +decide [stof, stofCore, mantissaCore, decimalVal,
      natOfDigits, expPart, expDigits, isSpaceChar, spanDigits, List.dropWhile]
  exact ⟨h, claim10_parse_failure_fatal.1 "abc" ["70"] h⟩

end CoolingLoop
